import Mathlib

/-!
Verification of the flow-results server core (praekeltfoundation/flow-results).

This file shallowly embeds the typed answer model of `flows/models.py` and the
request handlers of `flows/views.py`: the value codec
(`FlowResponse._serialize` / `_deserialize` / `_get_type`), the question-type
validator (`FlowQuestion.validate_type_options`), the answer validator
(`FlowResponse.clean` and its helpers), flow-version validation, the
response-batch creation handler (`FlowResponseViewSet.create`) and the cursor
pagination handler (`FlowResponseViewSet.list`).

Python dynamic values are embedded as the inductive `PyVal`; machine-level
concerns (hashing, interning) do not arise in the verified code.  Temporal
values (`datetime.date` / `time` / `datetime`) are embedded as records of
calendar fields together with executable `isoformat` printers and
`fromisoformat` parsers mirroring the fixed-width RFC 3339 forms the CPython
standard library emits and accepts for values the code round-trips.
-/

namespace FlowResults

/-! ## Decimal digits: fixed-width printing and parsing

`datetime.isoformat` zero-pads every component to a fixed width; CPython's
`fromisoformat` (3.7–3.10, the era of this code) parses exactly those
fixed-width forms.  We embed both directions at the character level. -/

/-- The ASCII digit character for `n` (`n < 10` in every use). -/
def digit (n : Nat) : Char := Char.ofNat (48 + n)

/-- Numeric value of an ASCII digit character, `none` for a non-digit. -/
def digitVal (c : Char) : Option Nat :=
  if '0' ≤ c ∧ c ≤ '9' then some (c.toNat - 48) else none

/-- Parse a two-digit zero-padded number. -/
def num2 (a b : Char) : Option Nat :=
  match digitVal a, digitVal b with
  | some x, some y => some (10 * x + y)
  | _, _ => none

/-- Parse a four-digit zero-padded number. -/
def num4 (a b c d : Char) : Option Nat :=
  match digitVal a, digitVal b, digitVal c, digitVal d with
  | some x, some y, some z, some w => some (1000 * x + 100 * y + 10 * z + w)
  | _, _, _, _ => none

/-- Parse a six-digit zero-padded number (microseconds). -/
def num6 (a b c d e f : Char) : Option Nat :=
  match digitVal a, digitVal b, digitVal c, digitVal d, digitVal e, digitVal f with
  | some x, some y, some z, some w, some v, some u =>
      some (100000 * x + 10000 * y + 1000 * z + 100 * w + 10 * v + u)
  | _, _, _, _, _, _ => none

/-! ## Temporal values

Embeddings of `datetime.date`, `datetime.time` and `datetime.datetime`.
`isValid` captures the constructor checks of the Python classes (the field
ranges a constructed value always satisfies); the printers/parsers embed
`isoformat` / `fromisoformat` for the fixed-width RFC 3339 forms. -/

/-- Gregorian leap-year rule used by `datetime.date`. -/
def isLeap (y : Nat) : Bool := y % 4 == 0 && (y % 100 != 0 || y % 400 == 0)

/-- Length of month `m` in year `y`, as enforced by the `datetime.date`
constructor (and hence by `date.fromisoformat`). -/
def daysInMonth (y m : Nat) : Nat :=
  if m = 2 then (if isLeap y then 29 else 28)
  else if m = 4 ∨ m = 6 ∨ m = 9 ∨ m = 11 then 30
  else 31

/-- A `datetime.date` value: calendar fields. -/
structure Date where
  year : Nat
  month : Nat
  day : Nat
deriving DecidableEq, Repr

/-- The range checks of the `datetime.date` constructor. -/
def Date.isValid (d : Date) : Bool :=
  1 ≤ d.year && d.year ≤ 9999 && 1 ≤ d.month && d.month ≤ 12 &&
    1 ≤ d.day && d.day ≤ daysInMonth d.year d.month

/-- `date.isoformat`: the zero-padded `YYYY-MM-DD` form, as characters. -/
def Date.isoformatChars (d : Date) : List Char :=
  [digit (d.year / 1000), digit (d.year / 100 % 10), digit (d.year / 10 % 10),
   digit (d.year % 10), '-', digit (d.month / 10), digit (d.month % 10), '-',
   digit (d.day / 10), digit (d.day % 10)]

/-- `date.fromisoformat`: parse exactly the zero-padded `YYYY-MM-DD` form,
applying the constructor range checks (so semantically invalid dates such as
2021-02-29 are rejected). -/
def Date.fromisoformatChars : List Char → Option Date
  | [y1, y2, y3, y4, '-', m1, m2, '-', d1, d2] =>
    match num4 y1 y2 y3 y4, num2 m1 m2, num2 d1 d2 with
    | some y, some m, some d =>
      if (Date.mk y m d).isValid then some (Date.mk y m d) else none
    | _, _, _ => none
  | _ => none

/-- A `datetime.time` value.  `tzoffset` is the UTC offset in minutes when the
value is timezone-aware (`datetime.timezone` accepts offsets strictly between
±24 hours; the code under verification only meets whole-minute offsets, which
is also all `isoformat` prints as `±HH:MM`). -/
structure Time where
  hour : Nat
  minute : Nat
  second : Nat
  microsecond : Nat
  tzoffset : Option Int
deriving DecidableEq, Repr

/-- The range checks of the `datetime.time` constructor plus the
`datetime.timezone` offset bound. -/
def Time.isValid (t : Time) : Bool :=
  t.hour ≤ 23 && t.minute ≤ 59 && t.second ≤ 59 && t.microsecond ≤ 999999 &&
    (match t.tzoffset with
     | none => true
     | some off => -1440 < off && off < 1440)

/-- The `±HH:MM` UTC-offset suffix `isoformat` appends to an aware value. -/
def offsetChars : Option Int → List Char
  | none => []
  | some off =>
    (if off < 0 then '-' else '+') ::
      [digit (off.natAbs / 60 / 10), digit (off.natAbs / 60 % 10), ':',
       digit (off.natAbs % 60 / 10), digit (off.natAbs % 60 % 10)]

/-- `time.isoformat` (default `timespec`): `HH:MM:SS`, with `.ffffff` exactly
when the microsecond field is non-zero, then the offset suffix when aware. -/
def Time.isoformatChars (t : Time) : List Char :=
  [digit (t.hour / 10), digit (t.hour % 10), ':', digit (t.minute / 10),
   digit (t.minute % 10), ':', digit (t.second / 10), digit (t.second % 10)] ++
    (if t.microsecond = 0 then [] else
      '.' :: [digit (t.microsecond / 100000), digit (t.microsecond / 10000 % 10),
              digit (t.microsecond / 1000 % 10), digit (t.microsecond / 100 % 10),
              digit (t.microsecond / 10 % 10), digit (t.microsecond % 10)]) ++
    offsetChars t.tzoffset

/-- Parse the optional `.ffffff` microsecond component, returning the value and
the remaining characters.  A malformed component makes the following offset
parse fail, as in CPython. -/
def parseMicro : List Char → Option (Nat × List Char)
  | [] => some (0, [])
  | c :: rest =>
    if c = '.' then
      match rest with
      | u1 :: u2 :: u3 :: u4 :: u5 :: u6 :: rest2 =>
        match num6 u1 u2 u3 u4 u5 u6 with
        | some n => some (n, rest2)
        | none => none
      | _ => none
    else some (0, c :: rest)

/-- Parse the optional `±HH:MM` offset suffix (the only offset form the
printer emits), applying the `datetime.timezone` bound. -/
def parseOffset : List Char → Option (Option Int)
  | [] => some none
  | [sgn, a, b, ':', c, d] =>
    match num2 a b, num2 c d with
    | some hh, some mm =>
      let mag : Int := (hh : Int) * 60 + (mm : Int)
      if sgn = '+' then (if mag < 1440 then some (some mag) else none)
      else if sgn = '-' then (if mag < 1440 then some (some (-mag)) else none)
      else none
    | _, _ => none
  | _ => none

/-- `time.fromisoformat` on the forms the printer emits: fixed-width
`HH:MM:SS`, optional microseconds, optional offset, with constructor checks. -/
def Time.fromisoformatChars : List Char → Option Time
  | h1 :: h2 :: ':' :: m1 :: m2 :: ':' :: s1 :: s2 :: rest =>
    match num2 h1 h2, num2 m1 m2, num2 s1 s2 with
    | some h, some m, some s =>
      match parseMicro rest with
      | some (us, rest2) =>
        match parseOffset rest2 with
        | some off =>
          if (Time.mk h m s us off).isValid then some (Time.mk h m s us off)
          else none
        | none => none
      | none => none
    | _, _, _ => none
  | _ => none

/-- A `datetime.datetime` value: a date plus a time-of-day (the `tzinfo` of an
aware datetime is carried by the time component's offset). -/
structure DateTime where
  date : Date
  time : Time
deriving DecidableEq, Repr

/-- Constructor checks for `datetime.datetime`. -/
def DateTime.isValid (dt : DateTime) : Bool := dt.date.isValid && dt.time.isValid

/-- `datetime.isoformat` with the default `T` separator. -/
def DateTime.isoformatChars (dt : DateTime) : List Char :=
  dt.date.isoformatChars ++ 'T' :: dt.time.isoformatChars

/-- `datetime.fromisoformat`: a 10-character date alone (midnight, naive), or a
date, any single separator character (CPython does not check it), and a time. -/
def DateTime.fromisoformatChars : List Char → Option DateTime
  | [y1, y2, y3, y4, '-', m1, m2, '-', d1, d2] =>
    match Date.fromisoformatChars [y1, y2, y3, y4, '-', m1, m2, '-', d1, d2] with
    | some d => some (DateTime.mk d (Time.mk 0 0 0 0 none))
    | none => none
  | y1 :: y2 :: y3 :: y4 :: '-' :: m1 :: m2 :: '-' :: d1 :: d2 :: _sep :: rest =>
    match Date.fromisoformatChars [y1, y2, y3, y4, '-', m1, m2, '-', d1, d2],
        Time.fromisoformatChars rest with
    | some d, some t => some (DateTime.mk d t)
    | _, _ => none
  | _ => none

/-- String-level `date.isoformat`. -/
def Date.isoformat (d : Date) : String := String.mk d.isoformatChars

/-- String-level `date.fromisoformat`. -/
def Date.fromisoformat (s : String) : Option Date := Date.fromisoformatChars s.data

/-- String-level `time.isoformat`. -/
def Time.isoformat (t : Time) : String := String.mk t.isoformatChars

/-- String-level `time.fromisoformat`. -/
def Time.fromisoformat (s : String) : Option Time := Time.fromisoformatChars s.data

/-- String-level `datetime.isoformat`. -/
def DateTime.isoformat (dt : DateTime) : String := String.mk dt.isoformatChars

/-- String-level `datetime.fromisoformat`. -/
def DateTime.fromisoformat (s : String) : Option DateTime :=
  DateTime.fromisoformatChars s.data

/-! ## Python runtime values

The validated code dispatches on the runtime type of dynamically typed values
(str, int, float, list, dict, None, the temporal classes, and `flows.types.URL`).
`PyVal` is their shallow embedding.  Python floats are only stored, compared
and type-tested by this code — never computed with — so they are embedded as
their literal token. -/

/-- A Python float, identified by its literal.  The code under verification
performs no float arithmetic. -/
structure PyFloat where
  lit : String
deriving DecidableEq, Repr

/-- A dynamically typed Python value as the verified code encounters it.
`url` embeds `flows.types.URL`.  Modelled from the spec: `flows/types.py` is
not part of the sources provided; the spec describes `URL` as a "URL-typed
string" (a `str` subclass wrapping the payload), which the test-suite usage
`URL("https://example.org")` confirms. -/
inductive PyVal where
  | url (s : String)
  | str (s : String)
  | int (n : Int)
  | bool (b : Bool)
  | float (f : PyFloat)
  | datetime (dt : DateTime)
  | date (d : Date)
  | time (t : Time)
  | list (xs : List PyVal)
  | dict (entries : List (String × PyVal))
  | null

/-- `isinstance(v, URL)`. -/
def PyVal.isURL : PyVal → Bool
  | .url _ => true
  | _ => false

/-- `isinstance(v, str)`: `URL` is a `str` subclass, so it also satisfies this. -/
def PyVal.isStr : PyVal → Bool
  | .url _ => true
  | .str _ => true
  | _ => false

/-- `isinstance(v, int)`: Python `bool` is an `int` subclass, so it also
satisfies this. -/
def PyVal.isInt : PyVal → Bool
  | .int _ => true
  | .bool _ => true
  | _ => false

/-- `isinstance(v, float)`. -/
def PyVal.isFloat : PyVal → Bool
  | .float _ => true
  | _ => false

/-- `isinstance(v, datetime)`. -/
def PyVal.isDatetime : PyVal → Bool
  | .datetime _ => true
  | _ => false

/-- `isinstance(v, date)`: `datetime` is a `date` subclass, so it also
satisfies this. -/
def PyVal.isDate : PyVal → Bool
  | .datetime _ => true
  | .date _ => true
  | _ => false

/-- `isinstance(v, time)`. -/
def PyVal.isTime : PyVal → Bool
  | .time _ => true
  | _ => false

/-- `isinstance(v, list)`. -/
def PyVal.isList : PyVal → Bool
  | .list _ => true
  | _ => false

/-- Python `==` on the values this code compares (`in` membership tests on
choice lists and cursor lookups).  A `URL` equals the `str` with the same
payload, as in Python.  Every comparison the verified code performs is between
string-, int-, float- or list-valued data; Python's cross-type numeric
equality (`1 == 1.0`) is not exercised by it and is not identified here. -/
def pyEq : PyVal → PyVal → Bool
  | .url a, .url b => a == b
  | .url a, .str b => a == b
  | .str a, .url b => a == b
  | .str a, .str b => a == b
  | .int a, .int b => a == b
  | .bool a, .bool b => a == b
  | .float a, .float b => a == b
  | .datetime a, .datetime b => a == b
  | .date a, .date b => a == b
  | .time a, .time b => a == b
  | .list a, .list b => pyEqList a b
  | .null, .null => true
  | _, _ => false
where
  /-- Pointwise Python `==` on lists. -/
  pyEqList : List PyVal → List PyVal → Bool
  | [], [] => true
  | a :: as, b :: bs => pyEq a b && pyEqList as bs
  | _, _ => false

/-- Python `str()` of the payload values that reach `URL(...)` in
`FlowResponse._deserialize`.  Stored payloads under the URL tag are strings
(or URL instances in memory), so only those cases are exercised. -/
def pyStrOf : PyVal → String
  | .str s => s
  | .url s => s
  | .int n => toString n
  | .float f => f.lit
  | _ => ""

/-- The `FlowResponse.Type` tag enum of `flows/models.py` (named `VType` here
because `Type` is a Lean keyword).  Source values: STRING 0, INTEGER 1,
ARRAY_OF_STRING 2, FLOAT 3, URL 4, ARRAY_OF_FLOAT 5, DATETIME 6, DATE 7,
TIME 8. -/
inductive VType where
  | STRING
  | INTEGER
  | ARRAY_OF_STRING
  | FLOAT
  | URL
  | ARRAY_OF_FLOAT
  | DATETIME
  | DATE
  | TIME
deriving DecidableEq, Repr

/-- The integer value of each tag, as persisted. -/
def VType.val : VType → Nat
  | .STRING => 0
  | .INTEGER => 1
  | .ARRAY_OF_STRING => 2
  | .FLOAT => 3
  | .URL => 4
  | .ARRAY_OF_FLOAT => 5
  | .DATETIME => 6
  | .DATE => 7
  | .TIME => 8

/-- `FlowResponse._get_type`: assign a storage tag by inspecting the runtime
shape, in source order; the Python function returns `None` implicitly for a
list that is neither all-strings nor all-floats and for unhandled shapes. -/
def FlowResponse.getType (value : PyVal) : Option VType :=
  if value.isURL then
    -- Since URLs are just strings, check it before string
    some .URL
  else if value.isStr then some .STRING
  else if value.isInt then some .INTEGER
  else if value.isFloat then some .FLOAT
  else if value.isDatetime then some .DATETIME
  else if value.isDate then some .DATE
  else if value.isTime then some .TIME
  else
    match value with
    | .list items =>
      if items.all PyVal.isStr then some .ARRAY_OF_STRING
      else if items.all PyVal.isFloat then some .ARRAY_OF_FLOAT
      else none
    | _ => none

/-- `value.isoformat()` as called by `_serialize`; only temporal values reach
it there (any other shape would raise `AttributeError` in Python and is
unreachable under `_serialize`'s guard). -/
def PyVal.isoformat : PyVal → PyVal
  | .datetime dt => .str dt.isoformat
  | .date d => .str d.isoformat
  | .time t => .str t.isoformat
  | v => v

/-- `FlowResponse._serialize`: tag the value and flatten temporal values to
their RFC 3339 string. -/
def FlowResponse.serialize (value : PyVal) : Option VType × PyVal :=
  let type_ := FlowResponse.getType value
  if type_ = some .DATETIME ∨ type_ = some .DATE ∨ type_ = some .TIME then
    (type_, value.isoformat)
  else (type_, value)

/-- `FlowResponse._deserialize`: rebuild the typed value from (tag, payload).
Parsing a non-string payload as a temporal type raises `TypeError` in Python;
that outcome is `none`. -/
def FlowResponse.deserialize (type_ : Option VType) (value : PyVal) : Option PyVal :=
  if type_ = some .URL then some (.url (pyStrOf value))
  else if type_ = some .DATETIME then
    match value with
    | .str s => (DateTime.fromisoformat s).map PyVal.datetime
    | _ => none
  else if type_ = some .DATE then
    match value with
    | .str s => (Date.fromisoformat s).map PyVal.date
    | _ => none
  else if type_ = some .TIME then
    match value with
    | .str s => (Time.fromisoformat s).map PyVal.time
    | _ => none
  else some value

/-! ## Python string formatting

The validators interpolate values into error messages with f-strings:
`f"{value}"` is `str(value)` and formatting a list applies `repr` to its
elements.  The embedding below covers the shapes those messages meet; the
temporal cases render as their `str()` form (they do not occur in any message
this development reasons about). -/

mutual

/-- Python `repr` for embedded values (`str` payloads quoted). -/
def pyRepr : PyVal → String
  | .url s => "\x27" ++ s ++ "\x27"
  | .str s => "\x27" ++ s ++ "\x27"
  | .int n => toString n
  | .bool b => if b then "True" else "False"
  | .float f => f.lit
  | .datetime dt => "\x27" ++ dt.isoformat ++ "\x27"
  | .date d => "\x27" ++ d.isoformat ++ "\x27"
  | .time t => "\x27" ++ t.isoformat ++ "\x27"
  | .list xs => "[" ++ pyReprList xs ++ "]"
  | .dict es => "\x7b" ++ pyReprEntries es ++ "\x7d"
  | .null => "None"

/-- `repr` of list elements, comma-separated. -/
def pyReprList : List PyVal → String
  | [] => ""
  | [x] => pyRepr x
  | x :: y :: xs => pyRepr x ++ ", " ++ pyReprList (y :: xs)

/-- `repr` of dict entries, comma-separated. -/
def pyReprEntries : List (String × PyVal) → String
  | [] => ""
  | [e] => "\x27" ++ e.1 ++ "\x27: " ++ pyRepr e.2
  | e :: e2 :: es => "\x27" ++ e.1 ++ "\x27: " ++ pyRepr e.2 ++ ", " ++
      pyReprEntries (e2 :: es)

end

/-- Python `str` (what an f-string interpolates): strings render unquoted,
containers via `repr` of their elements. -/
def pyStr : PyVal → String
  | .url s => s
  | .str s => s
  | v => pyRepr v

/-! ## Dicts and field-scoped errors -/

/-- A Python dict with string keys, as held by the JSON fields
(`type_options`, `response_metadata`).  Parsed JSON objects have unique keys,
so association-list lookup is first-match. -/
def PyDict := List (String × PyVal)

/-- `d[k]` as an option (`none` ↔ `KeyError`). -/
def PyDict.lookup (d : PyDict) (k : String) : Option PyVal :=
  match d with
  | [] => none
  | (k2, v) :: rest => if k2 = k then some v else PyDict.lookup rest k

/-- `k in d`. -/
def PyDict.hasKey (d : PyDict) (k : String) : Bool := (d.lookup k).isSome

/-- Field-scoped validation errors: `(field, message)` pairs in the order the
code appends them into its `defaultdict(list)`. -/
abbrev Errors := List (String × String)

/-- The messages accumulated under one field, in order. -/
def Errors.forField (errs : Errors) (field : String) : List String :=
  (errs : List (String × String)).filterMap
    (fun p => if p.1 = field then some p.2 else none)

/-! ## FlowQuestion and Flow -/

/-- The `FlowQuestion.Type` enum (named `QType` here because `Type` is a Lean
keyword; the `open` member is `open_q` because `open` is one too). -/
inductive QType where
  | select_one
  | select_many
  | numeric
  | open_q
  | text
  | image
  | video
  | audio
  | geo_point
  | datetime
  | date
  | time
deriving DecidableEq, Repr

/-- The string value of each `TextChoices` member. -/
def QType.value : QType → String
  | .select_one => "select_one"
  | .select_many => "select_many"
  | .numeric => "numeric"
  | .open_q => "open"
  | .text => "text"
  | .image => "image"
  | .video => "video"
  | .audio => "audio"
  | .geo_point => "geo_point"
  | .datetime => "datetime"
  | .date => "date"
  | .time => "time"

/-- All members, in declaration order. -/
def QType.all : List QType :=
  [.select_one, .select_many, .numeric, .open_q, .text, .image, .video, .audio,
   .geo_point, .datetime, .date, .time]

/-- The member whose string value is `s`, if any (Python compares the
metadata-supplied string against the `TextChoices` members directly). -/
def QType.ofValue (s : String) : Option QType :=
  QType.all.find? (fun t => t.value = s)

/-- `FlowQuestion.validate_type_options`: the messages appended to the
`type_options` key of the caller's error dict, in order.  The numeric `range`
checks form an `if`/`elif` chain in the source, so at most one of them fires. -/
def FlowQuestion.validateTypeOptions (type_ : QType) (type_options : PyDict) :
    List String :=
  match type_ with
  | .select_one =>
    match type_options.lookup "choices" with
    | none => ["choices is required for select_one type"]
    | some choices => if ¬ choices.isList then ["choices must be an array"] else []
  | .select_many =>
    match type_options.lookup "choices" with
    | none => ["choices is required for select_many type"]
    | some choices => if ¬ choices.isList then ["choices must be an array"] else []
  | .numeric =>
    match type_options.lookup "range" with
    | none => []
    | some range =>
      match range with
      | .list items =>
        if ¬ items.all PyVal.isInt then ["range can only contain integers"]
        else if ¬ items.length = 2 then ["range must contain exactly 2 items"]
        else []
      | _ => ["range must be an array"]
  | _ => []

/-- `Flow.Version`: the single member of the `TextChoices` enum, value
`"1.0.0-rc1"`. -/
def Flow.versionChoices : List String := ["1.0.0-rc1"]

/-- The Django `choices` check `full_clean` applies to `Flow.version`: the
value must be one of the enum values. -/
def Flow.versionValid (v : String) : Bool := Flow.versionChoices.contains v

/-- A `FlowQuestion` row (its owning flow is implicit: every store in this
development is already scoped to one flow). -/
structure FlowQuestionRec where
  id : String
  type : QType
  label : String
  type_options : PyDict

/-- A `FlowResponse` row: each polymorphic field is stored as a (tag, payload)
pair exactly as in the model; `none` tags embed SQL `NULL` (what Django stores
when `_get_type` returned `None`). -/
structure FlowResponseRec where
  timestamp : PyVal
  row_id_type : Option VType
  row_id_value : PyVal
  contact_id_type : Option VType
  contact_id_value : PyVal
  session_id_type : Option VType
  session_id_value : PyVal
  response_type : Option VType
  response_value : PyVal
  response_metadata : PyDict

/-- The `response` property getter: `_deserialize` of the stored pair
(`none` ↔ the getter raising). -/
def FlowResponseRec.response (r : FlowResponseRec) : Option PyVal :=
  FlowResponse.deserialize r.response_type r.response_value

/-- The `response` property setter: `_serialize` the value into the pair. -/
def FlowResponseRec.setResponse (r : FlowResponseRec) (value : PyVal) :
    FlowResponseRec :=
  { r with response_type := (FlowResponse.serialize value).1,
           response_value := (FlowResponse.serialize value).2 }

/-- The `row_id` property getter. -/
def FlowResponseRec.rowId (r : FlowResponseRec) : Option PyVal :=
  FlowResponse.deserialize r.row_id_type r.row_id_value

/-! ## Answer validation (`FlowResponse.clean` and helpers) -/

/-- Substring containment on character lists (Python `in` on strings). -/
def charsInfix (needle : List Char) : List Char → Bool
  | [] => needle.isEmpty
  | c :: rest => List.isPrefixOf needle (c :: rest) || charsInfix needle rest

/-- Python `x in container` for the container shapes the validator meets:
list membership by `==`, substring test on strings (a non-string member of a
string raises `TypeError`, embedded as `none`), dict key membership. -/
def pyIn (x container : PyVal) : Option Bool :=
  match container with
  | .list xs => some (xs.any (pyEq x))
  | .str s =>
    match x with
    | .str sub => some (charsInfix sub.data s.data)
    | .url sub => some (charsInfix sub.data s.data)
    | _ => none
  | .url s =>
    match x with
    | .str sub => some (charsInfix sub.data s.data)
    | .url sub => some (charsInfix sub.data s.data)
    | _ => none
  | .dict es =>
    match x with
    | .str k => some (PyDict.hasKey es k)
    | .url k => some (PyDict.hasKey es k)
    | _ => some false
  | _ => none

/-- `all(item in container for item in items)`: short-circuits on the first
`False`, and a raising membership test propagates (as in Python generators). -/
def allIn : List PyVal → PyVal → Option Bool
  | [], _ => some true
  | x :: xs, container =>
    match pyIn x container with
    | none => none
    | some false => some false
    | some true => allIn xs container

/-- `FlowResponse._validate_choice_order`.  NB the source reads
`self.question.type_options["choices"]` — the *question's own* stored options,
not the locally resolved ones — so for an open question this raises `KeyError`
(`none`) unless the question's own options happen to carry `choices`. -/
def FlowResponse.validateChoiceOrder (q : FlowQuestionRec) (r : FlowResponseRec)
    (errors : Errors) : Option Errors :=
  match PyDict.lookup q.type_options "choices" with
  | none => none
  | some choicesVal =>
    match PyDict.lookup r.response_metadata "choice_order" with
    | none => none
    | some choice_order =>
      if ¬ choice_order.isList then
        some (errors ++ [("response_metadata", "choice_order must be an array")])
      else
        match choicesVal with
        | .list choices =>
          match allIn choices choice_order with
          | none => none
          | some ok =>
            if ¬ ok then
              some (errors ++ [("response_metadata",
                "choice_order " ++ pyStr choice_order ++
                  " contains choices not in " ++ pyStr choicesVal)])
            else some errors
        | _ => none

/-- The value of the Python expression `URL(str)` in `_validate_media`: the
constructor is applied to the *builtin type object* `str`, not to the response,
and `str(str)` is `"<class 'str'>"`. -/
def strTypeStr : String := "<class \x27str\x27>"

/-- The `response_metadata` checks of `FlowResponse._validate_media`
(`format`, `dimensions`, `file_size_mb`, `duration_s`, `language`), as the
message list they append (every one under the `response_metadata` field), in
source order. -/
def mediaMetadataMsgs (md : PyDict) : List String :=
  (match PyDict.lookup md "format" with
   | some v => if ¬ v.isStr then ["format must be a string"] else []
   | none => []) ++
  (match PyDict.lookup md "dimensions" with
   | some dims =>
     match dims with
     | .list items =>
       (if items.length ≠ 2 then ["dimensions must have a length of 2"]
        else []) ++
         (if ¬ items.all PyVal.isInt then ["dimensions items must be integers"]
          else [])
     | _ => ["dimensions must be an array"]
   | none => []) ++
  (match PyDict.lookup md "file_size_mb" with
   | some v => if ¬ v.isInt ∧ ¬ v.isFloat then
       ["file_size_mb must be integer or float"]
     else []
   | none => []) ++
  (match PyDict.lookup md "duration_s" with
   | some v => if ¬ v.isInt ∧ ¬ v.isFloat then
       ["duration_s must be integer or float"]
     else []
   | none => []) ++
  (match PyDict.lookup md "language" with
   | some v => if ¬ v.isStr then ["language must be a string"] else []
   | none => [])

/-- The same checks as field-scoped errors. -/
def mediaMetadataErrors (md : PyDict) : Errors :=
  (mediaMetadataMsgs md).map (fun m => ("response_metadata", m))

/-- `FlowResponse._validate_media` (the shared image/video/audio rule),
including its coercion write to `self.response`. -/
def FlowResponse.validateMedia (r : FlowResponseRec) (errors : Errors) :
    Option (Errors × FlowResponseRec) :=
  match r.response with
  | none => none
  | some resp0 =>
    let r := if ¬ resp0.isURL ∧ resp0.isStr then r.setResponse (.url strTypeStr)
             else r
    match r.response with
    | none => none
    | some resp1 =>
      let errors := if ¬ resp1.isURL then errors ++ [("response", "must be a URL")]
                    else errors
      some (errors ++ mediaMetadataErrors r.response_metadata, r)

/-- The per-type dispatch of `FlowResponse.clean` (everything after the `open`
preamble), parameterised by the effective `type_` and `type_options` local
variables.  `none` embeds an uncaught non-`ValidationError` exception
(`KeyError` / `TypeError` / a raising property read). -/
def FlowResponse.cleanDispatch (type_ : QType) (type_options : PyDict)
    (q : FlowQuestionRec) (r : FlowResponseRec) (errors : Errors) :
    Option (Errors × FlowResponseRec) :=
  match type_ with
  | .select_one =>
    match PyDict.lookup type_options "choices" with
    | none => none
    | some choices =>
      match r.response with
      | none => none
      | some resp =>
        match pyIn resp choices with
        | none => none
        | some mem =>
          let errors := if ¬ mem then
              errors ++ [("response", pyStr resp ++
                " is not a valid choice. Valid choices are " ++ pyStr choices)]
            else errors
          if PyDict.hasKey r.response_metadata "choice_order" then
            match FlowResponse.validateChoiceOrder q r errors with
            | none => none
            | some errors => some (errors, r)
          else some (errors, r)
  | .select_many =>
    match PyDict.lookup type_options "choices" with
    | none => none
    | some choices =>
      match r.response with
      | none => none
      | some resp =>
        let step : Option Errors :=
          match resp with
          | .list items =>
            match allIn items choices with
            | none => none
            | some ok =>
              if ¬ ok then some (errors ++ [("response",
                  pyStr resp ++ " contains choices not in " ++ pyStr choices)])
              else some errors
          | _ => some (errors ++ [("response", "must be an array")])
        match step with
        | none => none
        | some errors =>
          if PyDict.hasKey r.response_metadata "choice_order" then
            match FlowResponse.validateChoiceOrder q r errors with
            | none => none
            | some errors => some (errors, r)
          else some (errors, r)
  | .numeric =>
    match r.response with
    | none => none
    | some resp =>
      let errors := if ¬ resp.isInt ∧ ¬ resp.isFloat then
          errors ++ [("response", "must be float or integer")]
        else errors
      some (errors, r)
  | .text =>
    match r.response with
    | none => none
    | some resp =>
      let errors := if ¬ resp.isStr then errors ++ [("response", "must be a string")]
                    else errors
      let errors :=
        match PyDict.lookup r.response_metadata "language" with
        | some lang => if ¬ lang.isStr then
            errors ++ [("response_metadata", "language must be a string")]
          else errors
        | none => errors
      some (errors, r)
  | .image => FlowResponse.validateMedia r errors
  | .video => FlowResponse.validateMedia r errors
  | .audio => FlowResponse.validateMedia r errors
  | .geo_point =>
    match r.response with
    | none => none
    | some resp =>
      match resp with
      | .list items =>
        let errors := if ¬ items.all PyVal.isFloat then
            errors ++ [("response", "array may only contain floats")]
          else errors
        let errors := if items.length < 2 ∨ items.length > 4 then
            errors ++ [("response",
              "number of array elements must be between 2 and 4 inclusive")]
          else errors
        some (errors, r)
      | _ => some (errors ++ [("response", "must be an array")], r)
  | .datetime =>
    match r.response with
    | none => none
    | some resp =>
      let r := if resp.isStr then
          match DateTime.fromisoformat (pyStrOf resp) with
          | some dtv => r.setResponse (.datetime dtv)
          | none => r
        else r
      match r.response with
      | none => none
      | some resp2 =>
        let errors := if ¬ resp2.isDatetime then
            errors ++ [("response", "must be an RFC 3339 date-time")]
          else errors
        some (errors, r)
  | .date =>
    match r.response with
    | none => none
    | some resp =>
      let r := if resp.isStr then
          match Date.fromisoformat (pyStrOf resp) with
          | some dv => r.setResponse (.date dv)
          | none => r
        else r
      match r.response with
      | none => none
      | some resp2 =>
        let errors := if ¬ resp2.isDate then
            errors ++ [("response", "must be an RFC 3339 date")]
          else errors
        some (errors, r)
  | .time =>
    match r.response with
    | none => none
    | some resp =>
      let r := if resp.isStr then
          match Time.fromisoformat (pyStrOf resp) with
          | some tv => r.setResponse (.time tv)
          | none => r
        else r
      match r.response with
      | none => none
      | some resp2 =>
        let errors := if ¬ resp2.isTime then
            errors ++ [("response", "must be an RFC 3339 time")]
          else errors
        some (errors, r)
  | .open_q =>
    -- no branch of the chain matches OPEN (the open preamble always resolved
    -- `type_` to a concrete type or raised before dispatch)
    some (errors, r)

/-- The sorted `valid_types` interpolation in the open preamble's message:
`f"type must be one of {sorted(valid_types)}"`. -/
def typeMustBeOneOfMsg : String :=
  "type must be one of [" ++
    ", ".intercalate
      (["audio", "date", "datetime", "geo_point", "image", "numeric",
        "select_many", "select_one", "text", "time", "video"].map
        (fun s => "\x27" ++ s ++ "\x27")) ++ "]"

/-- `FlowResponse.clean`: the open-type preamble (resolve the effective type
and options from `response_metadata`, validate them, and on any error re-key
the `type_options` messages under `response_metadata` with a `type_options.`
prefix and raise), then the per-type dispatch.  The result carries the raised
or empty error set together with the (possibly mutated) row; `none` embeds a
non-`ValidationError` exception escaping `clean`. -/
def FlowResponse.clean (q : FlowQuestionRec) (r : FlowResponseRec) :
    Option (Errors × FlowResponseRec) :=
  if q.type = QType.open_q then
    let md := r.response_metadata
    let te : Errors × QType :=
      match PyDict.lookup md "type" with
      | none => ([("response_metadata", "type is required")], QType.open_q)
      | some tv =>
        match tv with
        | .str s =>
          match QType.ofValue s with
          | some t =>
            if t = QType.open_q then
              ([("response_metadata", typeMustBeOneOfMsg)], QType.open_q)
            else ([], t)
          | none => ([("response_metadata", typeMustBeOneOfMsg)], QType.open_q)
        | _ => ([("response_metadata", typeMustBeOneOfMsg)], QType.open_q)
    let oe : Errors × PyDict :=
      match PyDict.lookup md "type_options" with
      | none => ([("response_metadata", "type_options is required")], [])
      | some tov =>
        match tov with
        | .dict es => ([], es)
        | _ => ([("response_metadata", "type_options must be an object")], [])
    let type_ := te.2
    let type_options := oe.2
    let errors := te.1 ++ oe.1 ++
      (FlowQuestion.validateTypeOptions type_ type_options).map
        (fun m => ("type_options", m))
    if errors.isEmpty then FlowResponse.cleanDispatch type_ type_options q r []
    else
      some (errors.filter (fun p => p.1 != "type_options") ++
        (Errors.forField errors "type_options").map
          (fun m => ("response_metadata", "type_options." ++ m)), r)
  else FlowResponse.cleanDispatch q.type q.type_options q r []

/-! ## Response-batch creation (`FlowResponseViewSet.create`)

The handler is modelled per flow: the flow was found, its questions are given,
and the storage layer is the flow's persisted response rows with their owning
question ids, with the `(question_id, row_id_value)` unique constraint
enforced on bulk insert (a single all-or-nothing statement). -/

/-- One request row of a response-batch submission: the 7-element tuple
`[timestamp, row_id, contact_id, session_id, question_id, response, metadata]`
(the metadata of every row this development reasons about is a JSON object). -/
structure ResponseRow where
  timestamp : PyVal
  row_id : PyVal
  contact_id : PyVal
  session_id : PyVal
  question_id : PyVal
  response_id : PyVal
  response_metadata : PyDict

/-- Build the `FlowResponse` instance for a request row: each polymorphic
field goes through its property setter (`_serialize`). -/
def FlowResponseRec.fromRow (row : ResponseRow) : FlowResponseRec :=
  { timestamp := row.timestamp
    row_id_type := (FlowResponse.serialize row.row_id).1
    row_id_value := (FlowResponse.serialize row.row_id).2
    contact_id_type := (FlowResponse.serialize row.contact_id).1
    contact_id_value := (FlowResponse.serialize row.contact_id).2
    session_id_type := (FlowResponse.serialize row.session_id).1
    session_id_value := (FlowResponse.serialize row.session_id).2
    response_type := (FlowResponse.serialize row.response_id).1
    response_value := (FlowResponse.serialize row.response_id).2
    response_metadata := row.response_metadata }

/-- The `clean_fields` checks that can fire for rows the request serializer
admits: each identifier tag's null check and its
`MaxValueValidator(Type.INTEGER, "must be string or integer")`, the JSON
payload null checks, and the `response_type` null check (a `None` tag is what
`_serialize` produces for an unrepresentable value). -/
def FlowResponseRec.cleanFields (r : FlowResponseRec) : Errors :=
  let tagErr : String → Option VType → Errors := fun field t =>
    match t with
    | none => [(field, "This field cannot be null.")]
    | some ty => if 1 < ty.val then [(field, "must be string or integer")] else []
  let nullErr : String → PyVal → Errors := fun field v =>
    match v with
    | .null => [(field, "This field cannot be null.")]
    | _ => []
  tagErr "row_id_type" r.row_id_type ++ nullErr "row_id_value" r.row_id_value ++
    tagErr "contact_id_type" r.contact_id_type ++
    nullErr "contact_id_value" r.contact_id_value ++
    tagErr "session_id_type" r.session_id_type ++
    nullErr "session_id_value" r.session_id_value ++
    (match r.response_type with
     | none => [("response_type", "This field cannot be null.")]
     | some _ => []) ++
    nullErr "response_value" r.response_value

/-- `full_clean(exclude=["question", "flow"], validate_unique=False)`:
field checks, then `clean()` (which also runs after field errors, Django
merging both sets). -/
def FlowResponseRec.fullClean (q : FlowQuestionRec) (r : FlowResponseRec) :
    Option (Errors × FlowResponseRec) :=
  match FlowResponse.clean q r with
  | none => none
  | some (cleanErrors, r2) => some (FlowResponseRec.cleanFields r ++ cleanErrors, r2)

/-- The flow's persisted responses, each with its owning question's id. -/
abbrev ResponseStore := List (String × FlowResponseRec)

/-- Outcome of a batch submission (HTTP 400 with per-index errors, HTTP 400
with the single translated uniqueness message, or HTTP 204). -/
inductive BatchOutcome where
  | indexedErrors (errs : List (Nat × Errors))
  | uniquenessError (msg : String)
  | created

/-- Whether inserting `answers` (in order) into `existing` hits the
`(question_id, row_id_value)` unique constraint — against a persisted row or
an earlier row of the same bulk insert. -/
def violatesUnique (existing : ResponseStore) :
    List (String × FlowResponseRec) → Bool
  | [] => false
  | (qid, a) :: rest =>
    existing.any (fun p => p.1 == qid && pyEq p.2.row_id_value a.row_id_value) ||
      violatesUnique (existing ++ [(qid, a)]) rest

/-- The handler's loop body over the indexed request rows: question lookup,
instance construction, `full_clean`; accumulate per-index errors and the
validated answers.  `none` embeds a non-`ValidationError` exception. -/
def processRows (questions : List FlowQuestionRec) :
    List ResponseRow → Nat →
    Option (List (Nat × Errors) × List (String × FlowResponseRec))
  | [], _ => some ([], [])
  | row :: rest, i =>
    let qOpt : Option FlowQuestionRec :=
      match row.question_id with
      | .str s => questions.find? (fun q => q.id == s)
      | _ => none
    match qOpt with
    | none =>
      match processRows questions rest (i + 1) with
      | none => none
      | some (errs, answers) =>
        some ((i, [("question_id",
          "Question with ID " ++ pyStr row.question_id ++ " not found")]) :: errs,
          answers)
    | some q =>
      match FlowResponseRec.fullClean q (FlowResponseRec.fromRow row) with
      | none => none
      | some (es, answer) =>
        match processRows questions rest (i + 1) with
        | none => none
        | some (errs, answers) =>
          if es.isEmpty then some (errs, (q.id, answer) :: answers)
          else some ((i, es) :: errs, answers)

/-- `FlowResponseViewSet.create` for an existing flow: validate every row,
reject the whole batch on any per-row error without touching storage, then
bulk-insert; an `IntegrityError` from the unique constraint aborts the insert
and is translated to the single batch-level message. -/
def FlowResponseViewSet.create (questions : List FlowQuestionRec)
    (existing : ResponseStore) (rows : List ResponseRow) :
    Option (BatchOutcome × ResponseStore) :=
  match processRows questions rows 0 with
  | none => none
  | some (errs, answers) =>
    if ¬ errs.isEmpty then some (.indexedErrors errs, existing)
    else if violatesUnique existing answers then
      some (.uniquenessError "row_id is not unique for flow question", existing)
    else some (.created, existing ++ answers)

/-! ## Response listing (`FlowResponseViewSet.list`)

The endpoint is modelled per flow: the flow's rows as `values_list` reads
them, plus the auto primary key (`id`, the internal monotonic sequence) that
the queryset orders by.  Timestamps enter comparisons only through the
database's datetime ordering, embedded as points on an integer timeline.
Query parameters are given after their best-effort parses: a `none` filter or
size stands for an absent or unparsable parameter (which the code ignores). -/

/-- A persisted response row as the listing endpoint projects it. -/
structure StoredRow where
  id : Nat
  timestamp : Int
  row_id_value : PyVal
  row_id_type : VType
  contact_id_value : PyVal
  session_id_value : PyVal
  question_id : String
  response_value : PyVal
  response_metadata : PyVal

/-- Listing query parameters (after their best-effort parses). -/
structure ListQuery where
  start_filter : Option Int
  end_filter : Option Int
  page_size_param : Option Int
  afterCursor : Option String
  beforeCursor : Option String

/-- `settings.REST_FRAMEWORK["PAGE_SIZE"]` (`flow_results/settings.py`). -/
def PAGE_SIZE : Int := 100

/-- The effective page size: the configured default, capped against a parsed
`page[size]` with `min` (an absent or unparsable parameter is ignored). -/
def effectivePageSize : Option Int → Int
  | some n => min PAGE_SIZE n
  | none => PAGE_SIZE

/-- Insert by ascending primary key (stable). -/
def insertById (x : StoredRow) : List StoredRow → List StoredRow
  | [] => [x]
  | y :: ys => if x.id ≤ y.id then x :: y :: ys else y :: insertById x ys

/-- `order_by("id")`. -/
def sortById (rows : List StoredRow) : List StoredRow := rows.foldr insertById []

/-- Python slice `l[:k]` (a negative bound counts from the end). -/
def pySliceTo (k : Int) (l : List α) : List α :=
  if k < 0 then l.take ((l.length : Int) + k).toNat else l.take k.toNat

/-- `int(x)` for payloads stored under the INTEGER tag. -/
def pyIntOf : PyVal → PyVal
  | .int n => .int n
  | .bool b => .int (if b then 1 else 0)
  | v => v

/-- One emitted response tuple: the row id payload is cast with `int(...)`
when its tag is INTEGER. -/
def StoredRow.tuple (a : StoredRow) : List PyVal :=
  [.int a.timestamp,
   if a.row_id_type = VType.INTEGER then pyIntOf a.row_id_value
   else a.row_id_value,
   a.contact_id_value, a.session_id_value, .str a.question_id,
   a.response_value, a.response_metadata]

/-- Outcome of a listing request: the page with its `next` / `previous` link
cursors (the `row_id_value` placed into `page[afterCursor]` /
`page[beforeCursor]`, `none` for a `null` link), or an uncaught exception. -/
inductive ListResult where
  | ok (responses : List (List PyVal)) (next previous : Option PyVal)
  | multipleObjectsReturned
  | indexError

/-- `FlowResponseViewSet.list`.  Cursor lookups run `get(row_id_value=...)`
against the flow's full row set: zero matches fall through (`DoesNotExist` is
caught), two or more raise `MultipleObjectsReturned`, which nothing catches. -/
def FlowResponseViewSet.list (rows : List StoredRow) (q : ListQuery) :
    ListResult :=
  let answers0 := sortById rows
  let answers0 :=
    match q.start_filter with
    | some ts => answers0.filter (fun a => ts < a.timestamp)
    | none => answers0
  let answers0 :=
    match q.end_filter with
    | some ts => answers0.filter (fun a => a.timestamp ≤ ts)
    | none => answers0
  let page_size : Int := effectivePageSize q.page_size_param
  let afterStep : Option (List StoredRow × Bool) :=
    match q.afterCursor with
    | none => some (answers0, false)
    | some c =>
      match rows.filter (fun a => pyEq a.row_id_value (.str c)) with
      | [] => some (answers0, false)
      | [a] => some (answers0.filter (fun x => a.id < x.id), true)
      | _ => none
  match afterStep with
  | none => .multipleObjectsReturned
  | some (answers1, has_previous) =>
    let beforeStep : Option (List StoredRow × Bool × Bool) :=
      match q.beforeCursor with
      | none => some (answers1, false, false)
      | some c =>
        match rows.filter (fun a => pyEq a.row_id_value (.str c)) with
        | [] => some (answers1, false, false)
        | [b] => some (answers1.filter (fun x => x.id < b.id), true, true)
        | _ => none
    match beforeStep with
    | none => .multipleObjectsReturned
    | some (answers2, has_next, rev) =>
      let ordered := if rev then answers2.reverse else answers2
      let fetched := pySliceTo (page_size + 1) ordered
      let step :=
        if (fetched.length : Int) > page_size then
          (pySliceTo page_size fetched,
           if rev then has_next else true,
           if rev then true else has_previous)
        else (fetched, has_next, has_previous)
      let answers := if rev then step.1.reverse else step.1
      let has_next := step.2.1
      let has_previous := step.2.2
      if has_next ∧ answers.isEmpty then .indexError
      else if has_previous ∧ answers.isEmpty then .indexError
      else
        let next_ : Option PyVal :=
          if has_next then (answers.getLast?).map (fun a => a.row_id_value)
          else none
        let previous : Option PyVal :=
          if has_previous then (answers.head?).map (fun a => a.row_id_value)
          else none
        .ok (answers.map StoredRow.tuple) next_ previous

/-! ## Claim-level definitions and fixtures -/

/-- The codec's representable values, as the spec enumerates them: URL-typed
strings, strings, integers, floats, valid datetimes/dates/times, and lists
that are all-strings or all-floats. -/
def Representable : PyVal → Prop
  | .url _ => True
  | .str _ => True
  | .int _ => True
  | .float _ => True
  | .datetime dt => dt.isValid = true
  | .date d => d.isValid = true
  | .time t => t.isValid = true
  | .list xs => xs.all PyVal.isStr = true ∨ xs.all PyVal.isFloat = true
  | _ => False

/-- Runtime test "a list whose items are all strings". -/
def PyVal.isListOfStr : PyVal → Bool
  | .list xs => xs.all PyVal.isStr
  | _ => false

/-- Runtime test "a list whose items are all floats". -/
def PyVal.isListOfFloat : PyVal → Bool
  | .list xs => xs.all PyVal.isFloat
  | _ => false

/-- Modelled from the spec (the refinement side of the precedence claim): the
ordered table URL → string → integer → float → datetime → date → time →
list-of-all-strings → list-of-all-floats with each entry's runtime test. -/
def specTagTests : List ((PyVal → Bool) × VType) :=
  [(PyVal.isURL, .URL), (PyVal.isStr, .STRING), (PyVal.isInt, .INTEGER),
   (PyVal.isFloat, .FLOAT), (PyVal.isDatetime, .DATETIME),
   (PyVal.isDate, .DATE), (PyVal.isTime, .TIME),
   (PyVal.isListOfStr, .ARRAY_OF_STRING), (PyVal.isListOfFloat, .ARRAY_OF_FLOAT)]

/-- Modelled from the spec: the tag of the first matching test in precedence
order; `none` (undefined) when no test matches. -/
def specFirstMatch (v : PyVal) : Option VType :=
  (specTagTests.find? (fun p => p.1 v)).map Prod.snd

/-- A response row fixture: string identifiers, the given response pair and
metadata. -/
def mkResponseRec (respTag : Option VType) (respVal : PyVal) (md : PyDict) :
    FlowResponseRec :=
  { timestamp := .str "2021-02-03T04:05:06+00:00"
    row_id_type := some .STRING
    row_id_value := .str "r1"
    contact_id_type := some .STRING
    contact_id_value := .str "c1"
    session_id_type := some .STRING
    session_id_value := .str "s1"
    response_type := respTag
    response_value := respVal
    response_metadata := md }

/-- An `open`-typed question with empty stored options. -/
def openQuestion : FlowQuestionRec :=
  { id := "q1", type := .open_q, label := "q1", type_options := [] }

/-- The same question declared natively as `select_one` over `["a", "b"]`. -/
def selectQuestion : FlowQuestionRec :=
  { id := "q1", type := .select_one, label := "q1",
    type_options := [("choices", .list [.str "a", .str "b"])] }

/-- Response metadata resolving an open question to `select_one` over
`["a", "b"]`, additionally carrying a `choice_order`. -/
def choiceOrderMd : PyDict :=
  [("type", .str "select_one"),
   ("type_options", .dict [("choices", .list [.str "a", .str "b"])]),
   ("choice_order", .list [.str "b", .str "a"])]

/-- Response metadata resolving an open question to `select_one` over
`["a", "b"]` (no `choice_order`). -/
def openSelectMd : PyDict :=
  [("type", .str "select_one"),
   ("type_options", .dict [("choices", .list [.str "a", .str "b"])])]

/-- A `text` question (batch-creation fixtures). -/
def textQuestion : FlowQuestionRec :=
  { id := "qt", type := .text, label := "t", type_options := [] }

/-- An `image` question (media fixtures). -/
def imageQuestion : FlowQuestionRec :=
  { id := "qi", type := .image, label := "i", type_options := [] }

/-- A request row answering `textQuestion`. -/
def mkTextRow (rid : String) (resp : PyVal) : ResponseRow :=
  { timestamp := .str "2021-02-03T04:05:06+00:00"
    row_id := .str rid
    contact_id := .str "c"
    session_id := .str "s"
    question_id := .str "qt"
    response_id := resp
    response_metadata := [] }

/-- A stored listing row with sequence number `i` and row id `rid`. -/
def mkStoredRow (i : Nat) (rid : String) (qid : String) : StoredRow :=
  { id := i, timestamp := 0, row_id_value := .str rid, row_id_type := .STRING,
    contact_id_value := .str "c", session_id_value := .str "s",
    question_id := qid, response_value := .str "x",
    response_metadata := .dict [] }

/-- The pagination-boundary fixture: five rows `a0..a4` in insertion order. -/
def fiveRowStore : List StoredRow :=
  [mkStoredRow 0 "a0" "q1", mkStoredRow 1 "a1" "q1", mkStoredRow 2 "a2" "q1",
   mkStoredRow 3 "a3" "q1", mkStoredRow 4 "a4" "q1"]

/-- `page[size]=2, page[afterCursor]=a3`, no filters. -/
def afterA3Query : ListQuery :=
  { start_filter := none, end_filter := none, page_size_param := some 2,
    afterCursor := some "a3", beforeCursor := none }

/-- `page[size]=2, page[afterCursor]=a4` — the cursor on the last row, so no
row lies beyond it. -/
def afterA4Query : ListQuery :=
  { start_filter := none, end_filter := none, page_size_param := some 2,
    afterCursor := some "a4", beforeCursor := none }

/-- The rows beyond the cursor row `a`: ascending internal order, sequence
number strictly greater than `a`'s. -/
def afterWindow (rows : List StoredRow) (a : StoredRow) : List StoredRow :=
  (sortById rows).filter (fun x => a.id < x.id)

/-- Modelled from the spec (§4.4, the after-cursor protocol): return the rows
beyond the cursor row in ascending order; fetch `page_size + 1`, trim to
`page_size`, let the overflow decide `has_next`; `has_previous` is set, so the
`previous` link carries the first returned row's `row_id` and `next` the last
returned row's `row_id` only on overflow; per "absent boundary ⇒ that link is
null", an empty page is returned with both links null. -/
def listAfterSpec (rows : List StoredRow) (a : StoredRow) (ps : Int) :
    ListResult :=
  let asc := afterWindow rows a
  let fetched := asc.take (ps + 1).toNat
  let trimmed := if (fetched.length : Int) > ps then fetched.take ps.toNat
                 else fetched
  let has_next := (fetched.length : Int) > ps
  .ok (trimmed.map StoredRow.tuple)
    (if has_next then (trimmed.getLast?).map (fun x => x.row_id_value)
     else none)
    ((trimmed.head?).map (fun x => x.row_id_value))

/-- The data model's uniqueness invariant over a flow's stored rows: no two
rows share `(question, row_id)`. -/
def rowUniqueInvariant (rows : List StoredRow) : Prop :=
  List.Pairwise
    (fun a b => ¬ (a.question_id = b.question_id ∧
      pyEq a.row_id_value b.row_id_value = true)) rows

/-- Two rows of one flow sharing a `row_id` across two different questions
(one submission row answering two questions). -/
def dupRowStore : List StoredRow :=
  [mkStoredRow 1 "dup" "q1", mkStoredRow 2 "dup" "q2"]

/-- `page[afterCursor]=dup`, nothing else. -/
def dupQuery : ListQuery :=
  { start_filter := none, end_filter := none, page_size_param := none,
    afterCursor := some "dup", beforeCursor := none }

/-! ## Supporting lemmas -/

theorem digitVal_digit {n : Nat} (h : n < 10) : digitVal (digit n) = some n := by
  interval_cases n <;> decide

theorem num2_digits {n : Nat} (h : n < 100) :
    num2 (digit (n / 10)) (digit (n % 10)) = some n := by
  rw [num2, digitVal_digit (by omega), digitVal_digit (by omega)]
  simp only [Option.some_inj]
  omega

theorem num4_digits {n : Nat} (h : n < 10000) :
    num4 (digit (n / 1000)) (digit (n / 100 % 10)) (digit (n / 10 % 10))
      (digit (n % 10)) = some n := by
  rw [num4, digitVal_digit (by omega), digitVal_digit (by omega),
    digitVal_digit (by omega), digitVal_digit (by omega)]
  simp only [Option.some_inj]
  omega

theorem num6_digits {n : Nat} (h : n < 1000000) :
    num6 (digit (n / 100000)) (digit (n / 10000 % 10)) (digit (n / 1000 % 10))
      (digit (n / 100 % 10)) (digit (n / 10 % 10)) (digit (n % 10)) = some n := by
  rw [num6, digitVal_digit (by omega), digitVal_digit (by omega),
    digitVal_digit (by omega), digitVal_digit (by omega),
    digitVal_digit (by omega), digitVal_digit (by omega)]
  simp only [Option.some_inj]
  omega

theorem daysInMonth_le (y m : Nat) : daysInMonth y m ≤ 31 := by
  unfold daysInMonth
  split_ifs <;> omega

theorem date_fromiso_of_isoformat {d : Date} (h : d.isValid = true) :
    Date.fromisoformatChars d.isoformatChars = some d := by
  obtain ⟨y, m, dd⟩ := d
  have hv := h
  simp only [Date.isValid, Bool.and_eq_true, decide_eq_true_eq] at hv
  have h31 : daysInMonth y m ≤ 31 := daysInMonth_le y m
  simp only [Date.isoformatChars]
  rw [Date.fromisoformatChars, num4_digits (by omega), num2_digits (by omega),
    num2_digits (by omega)]
  simp [h]

theorem parseMicro_emitted (us : Nat) (h : us ≤ 999999) (rest : List Char)
    (hrest : ∀ c tail, rest = c :: tail → c ≠ '.') :
    parseMicro ((if us = 0 then [] else
      '.' :: [digit (us / 100000), digit (us / 10000 % 10), digit (us / 1000 % 10),
              digit (us / 100 % 10), digit (us / 10 % 10), digit (us % 10)]) ++ rest)
      = some (us, rest) := by
  by_cases h0 : us = 0
  · subst h0
    simp only [if_pos rfl, List.nil_append]
    match rest, hrest with
    | [], _ => rfl
    | c :: tail, hr =>
      have hc : c ≠ '.' := hr c tail rfl
      simp [parseMicro, hc]
  · simp only [if_neg h0, List.cons_append, List.nil_append]
    rw [parseMicro, if_pos rfl, num6_digits (by omega)]

theorem parseOffset_emitted (off : Option Int)
    (h : match off with
         | none => True
         | some o => -1440 < o ∧ o < 1440) :
    parseOffset (offsetChars off) = some off := by
  match off with
  | none => rfl
  | some o =>
    simp only at h
    rw [offsetChars]
    by_cases hneg : o < 0
    · simp only [if_pos hneg]
      rw [parseOffset, num2_digits (by omega), num2_digits (by omega)]
      have h60 : ((o.natAbs / 60 : Nat) : Int) * 60 + ((o.natAbs % 60 : Nat) : Int)
          = (o.natAbs : Int) := by omega
      simp only [h60]
      rw [if_neg (show ¬(('-' : Char) = '+') by decide)]
      simp only [if_true]
      rw [if_pos (show ((o.natAbs : Nat) : Int) < 1440 by omega)]
      simp only [Option.some_inj]
      omega
    · simp only [if_neg hneg]
      rw [parseOffset, num2_digits (by omega), num2_digits (by omega)]
      have h60 : ((o.natAbs / 60 : Nat) : Int) * 60 + ((o.natAbs % 60 : Nat) : Int)
          = (o.natAbs : Int) := by omega
      simp only [h60]
      simp only [if_true]
      rw [if_pos (show ((o.natAbs : Nat) : Int) < 1440 by omega)]
      simp only [Option.some_inj]
      omega

theorem time_fromiso_of_isoformat {t : Time} (h : t.isValid = true) :
    Time.fromisoformatChars t.isoformatChars = some t := by
  obtain ⟨hh, mm, ss, us, off⟩ := t
  have hv := h
  simp only [Time.isValid, Bool.and_eq_true, decide_eq_true_eq] at hv
  rw [Time.isoformatChars]
  simp only [List.cons_append, List.nil_append, List.append_assoc]
  rw [Time.fromisoformatChars, num2_digits (by omega), num2_digits (by omega),
    num2_digits (by omega)]
  simp only []
  rw [parseMicro_emitted us (by omega) (offsetChars off) ?hrest]
  case hrest =>
    intro c tail hceq
    match off, hceq with
    | some o, hceq =>
      simp only [offsetChars, List.cons.injEq] at hceq
      rcases hceq with ⟨h1, -⟩
      subst h1
      split <;> decide
  simp only []
  rw [parseOffset_emitted off ?hoff]
  case hoff =>
    match off, hv with
    | none, _ => trivial
    | some o, hv =>
      show -1440 < o ∧ o < 1440
      have h2 := hv.2
      simp only [Bool.and_eq_true, decide_eq_true_eq] at h2
      exact h2
  simp only []
  rw [if_pos h]

theorem datetime_fromiso_of_isoformat {dt : DateTime} (h : dt.isValid = true) :
    DateTime.fromisoformatChars dt.isoformatChars = some dt := by
  obtain ⟨d, t⟩ := dt
  simp only [DateTime.isValid, Bool.and_eq_true] at h
  obtain ⟨y, m, dd⟩ := d
  have hd := date_fromiso_of_isoformat h.1
  have ht := time_fromiso_of_isoformat h.2
  simp only [Date.isoformatChars] at hd
  simp only [DateTime.isoformatChars, Date.isoformatChars, List.cons_append,
    List.nil_append]
  rw [DateTime.fromisoformatChars.eq_def]
  simp only [hd, ht]

theorem getType_list (xs : List PyVal) :
    FlowResponse.getType (.list xs)
      = (if xs.all PyVal.isStr then some VType.ARRAY_OF_STRING
         else if xs.all PyVal.isFloat then some VType.ARRAY_OF_FLOAT
         else none) := rfl

theorem specFirstMatch_list (xs : List PyVal) :
    specFirstMatch (.list xs)
      = (if xs.all PyVal.isStr then some VType.ARRAY_OF_STRING
         else if xs.all PyVal.isFloat then some VType.ARRAY_OF_FLOAT
         else none) := by
  cases hs : xs.all PyVal.isStr <;> cases hf : xs.all PyVal.isFloat <;>
    simp [specFirstMatch, specTagTests, List.find?, PyVal.isURL, PyVal.isStr,
      PyVal.isInt, PyVal.isFloat, PyVal.isDatetime, PyVal.isDate, PyVal.isTime,
      PyVal.isListOfStr, PyVal.isListOfFloat, hs, hf]

theorem setResponse_url_response (r : FlowResponseRec) (s : String) :
    (r.setResponse (.url s)).response = some (.url s) := rfl

theorem setResponse_metadata (r : FlowResponseRec) (v : PyVal) :
    (r.setResponse v).response_metadata = r.response_metadata := rfl

theorem mediaMetadataErrors_field {md : PyDict} {p : String × String}
    (hp : p ∈ mediaMetadataErrors md) : p.1 = "response_metadata" := by
  simp only [mediaMetadataErrors, List.mem_map] at hp
  obtain ⟨m, -, rfl⟩ := hp
  rfl

theorem validateMedia_of_str (r : FlowResponseRec) (errors : Errors) (s : String)
    (h : r.response = some (.str s)) :
    FlowResponse.validateMedia r errors
      = some (errors ++ mediaMetadataErrors r.response_metadata,
          r.setResponse (.url strTypeStr)) := by
  simp [FlowResponse.validateMedia, h, PyVal.isURL, PyVal.isStr,
    setResponse_url_response, setResponse_metadata]

theorem validateMedia_of_url (r : FlowResponseRec) (errors : Errors) (s : String)
    (h : r.response = some (.url s)) :
    FlowResponse.validateMedia r errors
      = some (errors ++ mediaMetadataErrors r.response_metadata, r) := by
  simp [FlowResponse.validateMedia, h, PyVal.isURL, PyVal.isStr]

theorem validateMedia_of_other (r : FlowResponseRec) (errors : Errors)
    (v : PyVal) (h : r.response = some v) (h1 : v.isStr = false)
    (h2 : v.isURL = false) :
    FlowResponse.validateMedia r errors
      = some (errors ++ [("response", "must be a URL")] ++
          mediaMetadataErrors r.response_metadata, r) := by
  simp [FlowResponse.validateMedia, h, h1, h2]

theorem clean_media_eq_validateMedia (q : FlowQuestionRec) (r : FlowResponseRec)
    (hq : q.type = .image ∨ q.type = .video ∨ q.type = .audio) :
    FlowResponse.clean q r = FlowResponse.validateMedia r [] := by
  have hne : ¬ q.type = QType.open_q := by
    rcases hq with h | h | h <;> rw [h] <;> decide
  rw [FlowResponse.clean, if_neg hne]
  rcases hq with h | h | h <;> rw [h] <;> rfl

theorem cleanDispatch_question_free (t : QType) (opts : PyDict)
    (q q2 : FlowQuestionRec) (r : FlowResponseRec) (errors : Errors)
    (hco : PyDict.hasKey r.response_metadata "choice_order" = false) :
    FlowResponse.cleanDispatch t opts q r errors
      = FlowResponse.cleanDispatch t opts q2 r errors := by
  cases t <;> simp [FlowResponse.cleanDispatch, hco]

theorem clean_open_resolved_errors (q : FlowQuestionRec) (r : FlowResponseRec)
    (ts : String) (t : QType) (opts : PyDict) (msgs : List String)
    (hq : q.type = .open_q)
    (hty : PyDict.lookup r.response_metadata "type" = some (.str ts))
    (hoft : QType.ofValue ts = some t) (hne : t ≠ .open_q)
    (hopts : PyDict.lookup r.response_metadata "type_options"
      = some (.dict opts))
    (hmsgs : FlowQuestion.validateTypeOptions t opts = msgs)
    (hnonempty : msgs ≠ []) :
    FlowResponse.clean q r
      = some (msgs.map (fun m => ("response_metadata", "type_options." ++ m)),
          r) := by
  rw [FlowResponse.clean, if_pos hq]
  simp only [hty, hoft, hopts, if_neg hne, hmsgs, List.nil_append]
  have hie : (msgs.map (fun m => (("type_options", m) : String × String))
      ).isEmpty = false := by
    cases msgs
    · exact absurd rfl hnonempty
    · rfl
  rw [hie]
  simp only [Bool.false_eq_true, if_false, Option.some_inj, Prod.mk.injEq]
  refine ⟨?_, trivial⟩
  · rw [List.filter_map]
    have : ((fun p : String × String => p.1 != "type_options") ∘
        fun m => (("type_options", m) : String × String)) = fun _ => false := by
      funext m
      simp
    rw [this, List.filter_false, List.map_nil, List.nil_append,
      Errors.forField, List.filterMap_map]
    have : ((fun p : String × String =>
          if p.1 = "type_options" then some p.2 else none) ∘
        fun m => (("type_options", m) : String × String))
        = fun m => some m := by
      funext m
      simp
    rw [this]
    simp

theorem clean_open_resolved_ok (q : FlowQuestionRec) (r : FlowResponseRec)
    (ts : String) (t : QType) (opts : PyDict)
    (hq : q.type = .open_q)
    (hty : PyDict.lookup r.response_metadata "type" = some (.str ts))
    (hoft : QType.ofValue ts = some t) (hne : t ≠ .open_q)
    (hopts : PyDict.lookup r.response_metadata "type_options"
      = some (.dict opts))
    (hmsgs : FlowQuestion.validateTypeOptions t opts = []) :
    FlowResponse.clean q r = FlowResponse.cleanDispatch t opts q r [] := by
  rw [FlowResponse.clean, if_pos hq]
  simp only [hty, hoft, hopts, if_neg hne, hmsgs, List.nil_append,
    List.map_nil, List.isEmpty_nil, if_true]

theorem pySliceTo_nonneg (k : Int) (h : 0 ≤ k) (l : List α) :
    pySliceTo k l = l.take k.toNat := if_neg (by omega)

theorem take_isEmpty_false {α : Type} (l : List α) (k : Nat) (hl : l ≠ [])
    (hk : 0 < k) : (l.take k).isEmpty = false := by
  match l, k, hl, hk with
  | x :: xs, k + 1, _, _ => rfl

theorem list_afterCursor_spec (rows : List StoredRow) (q : ListQuery)
    (c : String) (a : StoredRow) (n : Int)
    (hsf : q.start_filter = none) (hef : q.end_filter = none)
    (hps : q.page_size_param = some n) (hpos : 0 < n)
    (haf : q.afterCursor = some c) (hbf : q.beforeCursor = none)
    (hfil : rows.filter (fun x => pyEq x.row_id_value (.str c)) = [a])
    (hwin : afterWindow rows a ≠ []) :
    FlowResponseViewSet.list rows q = listAfterSpec rows a (min 100 n) := by
  have hpos' : (0 : Int) < min 100 n := lt_min (by norm_num) hpos
  simp only [afterWindow] at hwin
  simp only [FlowResponseViewSet.list, hsf, hef, hps, haf, hbf, hfil,
    effectivePageSize, PAGE_SIZE, listAfterSpec, afterWindow,
    Bool.false_eq_true, if_false]
  rw [pySliceTo_nonneg (min 100 n + 1) (by omega)]
  rw [pySliceTo_nonneg (min 100 n) (by omega)]
  by_cases htrim :
      ((((sortById rows).filter (fun x => a.id < x.id)).take
        (min 100 n + 1).toNat).length : Int) > min 100 n
  · have hfe : (((sortById rows).filter (fun x => a.id < x.id)).take
        (min 100 n + 1).toNat) ≠ [] :=
      List.ne_nil_of_length_pos (by omega)
    have hemp : ((((sortById rows).filter (fun x => a.id < x.id)).take
        (min 100 n + 1).toNat).take (min 100 n).toNat).isEmpty = false :=
      take_isEmpty_false _ _ hfe (by omega)
    simp only [if_pos htrim]
    simp [hemp]
  · have hemp : ((((sortById rows).filter (fun x => a.id < x.id)).take
        (min 100 n + 1).toNat)).isEmpty = false :=
      take_isEmpty_false _ _ hwin (by omega)
    simp only [if_neg htrim]
    simp [hemp]

theorem list_afterCursor_empty (rows : List StoredRow) (q : ListQuery)
    (c : String) (a : StoredRow) (n : Int)
    (hsf : q.start_filter = none) (hef : q.end_filter = none)
    (hps : q.page_size_param = some n) (hpos : 0 < n)
    (haf : q.afterCursor = some c) (hbf : q.beforeCursor = none)
    (hfil : rows.filter (fun x => pyEq x.row_id_value (.str c)) = [a])
    (hwin : afterWindow rows a = []) :
    FlowResponseViewSet.list rows q = .indexError := by
  have hpos' : (0 : Int) < min 100 n := lt_min (by norm_num) hpos
  simp only [afterWindow] at hwin
  simp only [FlowResponseViewSet.list, hsf, hef, hps, haf, hbf, hfil,
    effectivePageSize, PAGE_SIZE, Bool.false_eq_true, if_false, hwin]
  rw [pySliceTo_nonneg (min 100 n + 1) (by omega)]
  simp only [List.take_nil, List.length_nil]
  rw [if_neg (show ¬(((0 : Nat) : Int) > min 100 n) by omega)]
  simp

/-! ## Claim theorems -/

/-- C1: for every representable value `v` — a URL-typed string, plain string,
integer, float, datetime, date, time, list of all strings, or list of all
floats — `FlowResponse._deserialize` applied to the (type tag, payload) pair
produced by `FlowResponse._serialize(v)` returns a value equal to `v`. -/
theorem C1_codec_roundtrip (v : PyVal) (h : Representable v) :
    FlowResponse.deserialize (FlowResponse.serialize v).1
      (FlowResponse.serialize v).2 = some v := by
  match v, h with
  | .url s, _ => rfl
  | .str s, _ => rfl
  | .int n, _ => rfl
  | .float f, _ => rfl
  | .datetime dt, h =>
    rw [show FlowResponse.serialize (.datetime dt)
        = (some VType.DATETIME, .str dt.isoformat) from rfl]
    show (DateTime.fromisoformat dt.isoformat).map PyVal.datetime
      = some (.datetime dt)
    rw [show DateTime.fromisoformat dt.isoformat
        = DateTime.fromisoformatChars dt.isoformatChars from rfl]
    rw [datetime_fromiso_of_isoformat h]
    rfl
  | .date d, h =>
    rw [show FlowResponse.serialize (.date d)
        = (some VType.DATE, .str d.isoformat) from rfl]
    show (Date.fromisoformat d.isoformat).map PyVal.date = some (.date d)
    rw [show Date.fromisoformat d.isoformat
        = Date.fromisoformatChars d.isoformatChars from rfl]
    rw [date_fromiso_of_isoformat h]
    rfl
  | .time t, h =>
    rw [show FlowResponse.serialize (.time t)
        = (some VType.TIME, .str t.isoformat) from rfl]
    show (Time.fromisoformat t.isoformat).map PyVal.time = some (.time t)
    rw [show Time.fromisoformat t.isoformat
        = Time.fromisoformatChars t.isoformatChars from rfl]
    rw [time_fromiso_of_isoformat h]
    rfl
  | .list xs, h =>
    have hg : FlowResponse.getType (.list xs) = some VType.ARRAY_OF_STRING ∨
        FlowResponse.getType (.list xs) = some VType.ARRAY_OF_FLOAT := by
      rcases h with h | h
      · left
        simp [FlowResponse.getType, PyVal.isURL, PyVal.isStr, PyVal.isInt,
          PyVal.isFloat, PyVal.isDatetime, PyVal.isDate, PyVal.isTime, h]
      · by_cases hs : xs.all PyVal.isStr
        · left
          simp [FlowResponse.getType, PyVal.isURL, PyVal.isStr, PyVal.isInt,
            PyVal.isFloat, PyVal.isDatetime, PyVal.isDate, PyVal.isTime, hs]
        · right
          simp [FlowResponse.getType, PyVal.isURL, PyVal.isStr, PyVal.isInt,
            PyVal.isFloat, PyVal.isDatetime, PyVal.isDate, PyVal.isTime, hs, h]
    rcases hg with hg | hg <;>
      simp [FlowResponse.serialize, FlowResponse.deserialize, hg]

/-- Witness for C1 at the spec's concrete datetime
`datetime(2021, 2, 3, 4, 5, 6, tzinfo=utc)`. -/
theorem C1_codec_roundtrip_witness :
    FlowResponse.deserialize
      (FlowResponse.serialize
        (PyVal.datetime ⟨⟨2021, 2, 3⟩, ⟨4, 5, 6, 0, some 0⟩⟩)).1
      (FlowResponse.serialize
        (PyVal.datetime ⟨⟨2021, 2, 3⟩, ⟨4, 5, 6, 0, some 0⟩⟩)).2
      = some (PyVal.datetime ⟨⟨2021, 2, 3⟩, ⟨4, 5, 6, 0, some 0⟩⟩) :=
  C1_codec_roundtrip _
    (show DateTime.isValid ⟨⟨2021, 2, 3⟩, ⟨4, 5, 6, 0, some 0⟩⟩ = true by decide)

/-- C7: the encoder assigns the type tag by inspecting the value's runtime
shape in the fixed precedence order URL, string, integer, float, datetime,
date, time, list-of-all-strings, list-of-all-floats, first match winning
(`_get_type` equals the spec's first-match table); a URL-typed string is
tagged URL not STRING, a datetime is tagged DATETIME not DATE, and a list
that is neither all strings nor all floats receives no tag. -/
theorem C7_getType_precedence :
    (∀ v, FlowResponse.getType v = specFirstMatch v) ∧
    (∀ s, FlowResponse.getType (.url s) = some VType.URL) ∧
    (∀ dt, FlowResponse.getType (.datetime dt) = some VType.DATETIME) ∧
    (∀ xs, ¬ xs.all PyVal.isStr = true → ¬ xs.all PyVal.isFloat = true →
      FlowResponse.getType (.list xs) = none) := by
  refine ⟨?_, fun s => rfl, fun dt => rfl, ?_⟩
  · intro v
    match v with
    | .url s => rfl
    | .str s => rfl
    | .int n => rfl
    | .bool b => rfl
    | .float f => rfl
    | .datetime dt => rfl
    | .date d => rfl
    | .time t => rfl
    | .dict es => rfl
    | .null => rfl
    | .list xs => rw [getType_list, specFirstMatch_list]
  · intro xs h1 h2
    rw [getType_list]
    simp [h1, h2]

/-- Witness for C7's conditional conjunct at the mixed list `["a", 1]`. -/
theorem C7_getType_precedence_witness :
    FlowResponse.getType (.list [.str "a", .int 1]) = none :=
  C7_getType_precedence.2.2.2 [.str "a", .int 1] (by decide) (by decide)

/-- C4 counterexample: for a numeric question whose `type_options.range` is
`["a"]` — a list that both contains a non-integer and does not have exactly 2
items — only the "range can only contain integers" error is reported; the
"range must contain exactly 2 items" error is not, because the range checks
are an `if`/`elif` chain. -/
theorem C4_typeOptions_counterexample :
    FlowQuestion.validateTypeOptions QType.numeric
        [("range", PyVal.list [PyVal.str "a"])]
      = ["range can only contain integers"] ∧
    "range must contain exactly 2 items" ∉
      FlowQuestion.validateTypeOptions QType.numeric
        [("range", PyVal.list [PyVal.str "a"])] := by
  constructor
  · rfl
  · decide

/-- C4 amended: `validate_type_options` evaluates its rules in one pass but
the rules for each type form an `if`/`elif` chain, so at most one message is
reported per call; in particular, for a numeric `range` list containing a
non-integer element, only "range can only contain integers" is reported, even
when the list also fails the two-item rule. -/
theorem C4_typeOptions_amended :
    (∀ t opts, (FlowQuestion.validateTypeOptions t opts).length ≤ 1) ∧
    (∀ opts items, PyDict.lookup opts "range" = some (PyVal.list items) →
      ¬ items.all PyVal.isInt = true →
      FlowQuestion.validateTypeOptions QType.numeric opts
        = ["range can only contain integers"]) := by
  constructor
  · intro t opts
    cases t <;> simp only [FlowQuestion.validateTypeOptions] <;>
      repeat' first
        | split
        | simp
  · intro opts items hl hni
    simp [FlowQuestion.validateTypeOptions, hl, hni]

/-- Witness for C4's amended claim at `range = ["a"]`. -/
theorem C4_typeOptions_amended_witness :
    FlowQuestion.validateTypeOptions QType.numeric
        [("range", PyVal.list [PyVal.str "a"])]
      = ["range can only contain integers"] :=
  C4_typeOptions_amended.2 [("range", PyVal.list [PyVal.str "a"])]
    [PyVal.str "a"] rfl (by decide)

/-- C8 counterexample: the single allowed version enum value is
`"1.0.0-rc1"`, not `"1.0.0-rc.1"`: the claimed value fails the `choices`
validation and the actual member passes it. -/
theorem C8_version_counterexample :
    Flow.versionValid "1.0.0-rc.1" = false ∧
    Flow.versionValid "1.0.0-rc1" = true := by
  decide

/-- C8 amended: the `version` attribute admits exactly one allowed enum
value, the string `"1.0.0-rc1"`: that value passes validation and every other
string is rejected. -/
theorem C8_version_amended :
    Flow.versionValid "1.0.0-rc1" = true ∧
    ∀ v : String, v ≠ "1.0.0-rc1" → Flow.versionValid v = false := by
  refine ⟨rfl, fun v hv => ?_⟩
  simp [Flow.versionValid, Flow.versionChoices, List.contains, hv]

/-- Witness for C8's amended claim at the rejected string `"1.0.0-rc.1"`. -/
theorem C8_version_amended_witness :
    Flow.versionValid "1.0.0-rc1" = true ∧
    Flow.versionValid "1.0.0-rc.1" = false :=
  ⟨C8_version_amended.1, C8_version_amended.2 "1.0.0-rc.1" (by decide)⟩

/-- C5: for every image/video/audio question, answer validation requires the
response to decode to a URL-typed value, coercing a plain string response to a
URL-typed value before the check; consequently the "must be a URL" error is
never reported for a string-valued (or URL-valued) response and is reported
for every non-string, non-URL response. -/
theorem C5_media_url_validation (q : FlowQuestionRec) (r : FlowResponseRec)
    (hq : q.type = .image ∨ q.type = .video ∨ q.type = .audio) :
    (∀ s, r.response = some (.str s) →
      ∃ errs r2, FlowResponse.clean q r = some (errs, r2) ∧
        ("response", "must be a URL") ∉ errs) ∧
    (∀ s, r.response = some (.url s) →
      ∃ errs r2, FlowResponse.clean q r = some (errs, r2) ∧
        ("response", "must be a URL") ∉ errs) ∧
    (∀ v, r.response = some v → v.isStr = false → v.isURL = false →
      ∃ errs r2, FlowResponse.clean q r = some (errs, r2) ∧
        ("response", "must be a URL") ∈ errs) := by
  rw [clean_media_eq_validateMedia q r hq]
  refine ⟨fun s hs => ?_, fun s hs => ?_, fun v hv h1 h2 => ?_⟩
  · refine ⟨_, _, validateMedia_of_str r [] s hs, fun hmem => ?_⟩
    rw [List.nil_append] at hmem
    have := mediaMetadataErrors_field hmem
    simp at this
  · refine ⟨_, _, validateMedia_of_url r [] s hs, fun hmem => ?_⟩
    rw [List.nil_append] at hmem
    have := mediaMetadataErrors_field hmem
    simp at this
  · refine ⟨_, _, validateMedia_of_other r [] v hv h1 h2, ?_⟩
    simp

/-- Witness for C5: a plain-string response to an image question never gets
the URL error, and an integer response does get it. -/
theorem C5_media_url_validation_witness :
    (∃ errs r2,
      FlowResponse.clean imageQuestion
          (mkResponseRec (some .STRING) (.str "nonsense") [])
        = some (errs, r2) ∧ ("response", "must be a URL") ∉ errs) ∧
    (∃ errs r2,
      FlowResponse.clean imageQuestion
          (mkResponseRec (some .INTEGER) (.int 1) [])
        = some (errs, r2) ∧ ("response", "must be a URL") ∈ errs) :=
  ⟨(C5_media_url_validation imageQuestion
      (mkResponseRec (some .STRING) (.str "nonsense") [])
      (Or.inl rfl)).1 "nonsense" rfl,
   (C5_media_url_validation imageQuestion
      (mkResponseRec (some .INTEGER) (.int 1) [])
      (Or.inl rfl)).2.2 (.int 1) rfl rfl rfl⟩

/-- C9: for every image/video/audio question and every plain string response
`s`, validation replaces the stored response with the constant URL-typed
string `"<class 'str'>"` (the validator wraps the builtin `str` type itself),
so the submitted string is discarded: the stored value is independent of `s`
and differs from it whenever `s` is not that constant — validation mutates the
response field. -/
theorem C9_media_coercion_discards (q : FlowQuestionRec) (r : FlowResponseRec)
    (s : String)
    (hq : q.type = .image ∨ q.type = .video ∨ q.type = .audio)
    (h : r.response = some (.str s)) :
    ∃ errs, FlowResponse.clean q r
        = some (errs, r.setResponse (.url strTypeStr)) ∧
      (r.setResponse (.url strTypeStr)).response_value
        = .url "<class \x27str\x27>" ∧
      (r.setResponse (.url strTypeStr)).response_type = some VType.URL ∧
      (s ≠ "<class \x27str\x27>" →
        (r.setResponse (.url strTypeStr)).response_value ≠ .str s ∧
        (r.setResponse (.url strTypeStr)).response_value ≠ .url s) := by
  rw [clean_media_eq_validateMedia q r hq]
  refine ⟨_, validateMedia_of_str r [] s h, rfl, rfl, fun hne => ?_⟩
  have hval : (r.setResponse (.url strTypeStr)).response_value
      = PyVal.url strTypeStr := rfl
  rw [hval]
  constructor
  · intro hcontra
    exact PyVal.noConfusion hcontra
  · intro hcontra
    injection hcontra with h2
    exact hne h2.symm

/-- Witness for C9 at the submitted string "https://example.org". -/
theorem C9_media_coercion_discards_witness :
    ∃ errs,
      FlowResponse.clean imageQuestion
          (mkResponseRec (some .STRING) (.str "https://example.org") [])
        = some (errs,
          (mkResponseRec (some .STRING) (.str "https://example.org") []
            ).setResponse (.url strTypeStr)) ∧
      ((mkResponseRec (some .STRING) (.str "https://example.org") []
          ).setResponse (.url strTypeStr)).response_value
        = .url "<class \x27str\x27>" ∧
      ((mkResponseRec (some .STRING) (.str "https://example.org") []
          ).setResponse (.url strTypeStr)).response_type = some VType.URL ∧
      ("https://example.org" ≠ "<class \x27str\x27>" →
        ((mkResponseRec (some .STRING) (.str "https://example.org") []
            ).setResponse (.url strTypeStr)).response_value
          ≠ .str "https://example.org" ∧
        ((mkResponseRec (some .STRING) (.str "https://example.org") []
            ).setResponse (.url strTypeStr)).response_value
          ≠ .url "https://example.org") :=
  C9_media_coercion_discards imageQuestion
    (mkResponseRec (some .STRING) (.str "https://example.org") [])
    "https://example.org" (Or.inl rfl) rfl

/-- C3: for every response batch on an existing flow, if any row fails
application-level validation the handler reports the errors indexed by the
failing rows' positions and persists nothing; if every row passes but the
storage layer's `(question, row_id)` unique constraint fires during the bulk
insert, the whole batch is aborted with the single translated message
"row_id is not unique for flow question" and, again, nothing is persisted. -/
theorem C3_batch_atomicity :
    (∀ (questions : List FlowQuestionRec) (existing : ResponseStore)
        (rows : List ResponseRow) errs answers i e,
      processRows questions rows 0 = some (errs, answers) →
      (i, e) ∈ errs →
      FlowResponseViewSet.create questions existing rows
        = some (.indexedErrors errs, existing)) ∧
    (∀ (questions : List FlowQuestionRec) (existing : ResponseStore)
        (rows : List ResponseRow) answers,
      processRows questions rows 0 = some ([], answers) →
      violatesUnique existing answers = true →
      FlowResponseViewSet.create questions existing rows
        = some (.uniquenessError "row_id is not unique for flow question",
            existing)) := by
  constructor
  · intro questions existing rows errs answers i e hproc hmem
    have hne : ¬ errs.isEmpty = true := by
      cases errs
      · simp at hmem
      · simp
    simp [FlowResponseViewSet.create, hproc, hne]
  · intro questions existing rows answers hproc hviol
    simp [FlowResponseViewSet.create, hproc, hviol]

/-- Witness for C3: a two-row batch whose second row answers a text question
with an integer persists nothing and reports under index 1; a single valid
row colliding with a persisted `(question, row_id)` pair aborts with the
translated message and persists nothing. -/
theorem C3_batch_atomicity_witness :
    FlowResponseViewSet.create [textQuestion] []
        [mkTextRow "1" (.str "ok"), mkTextRow "2" (.int 7)]
      = some (.indexedErrors [(1, [("response", "must be a string")])], []) ∧
    FlowResponseViewSet.create [textQuestion]
        [("qt", FlowResponseRec.fromRow (mkTextRow "1" (.str "ok")))]
        [mkTextRow "1" (.str "other")]
      = some (.uniquenessError "row_id is not unique for flow question",
          [("qt", FlowResponseRec.fromRow (mkTextRow "1" (.str "ok")))]) :=
  ⟨C3_batch_atomicity.1 [textQuestion] []
      [mkTextRow "1" (.str "ok"), mkTextRow "2" (.int 7)]
      [(1, [("response", "must be a string")])]
      [("qt", FlowResponseRec.fromRow (mkTextRow "1" (.str "ok")))]
      1 [("response", "must be a string")] rfl (by simp),
   C3_batch_atomicity.2 [textQuestion]
      [("qt", FlowResponseRec.fromRow (mkTextRow "1" (.str "ok")))]
      [mkTextRow "1" (.str "other")]
      [("qt", FlowResponseRec.fromRow (mkTextRow "1" (.str "other")))]
      rfl rfl⟩

/-- C2 counterexample: an open question whose metadata resolves to a valid
`select_one` with valid choices, a valid response and a `choice_order` — the
natively declared question validates successfully, but the open question
raises an uncaught `KeyError` because `_validate_choice_order` reads the
question's own (empty) stored `type_options`, not the resolved ones: so
validation does not continue "exactly as if the question had been declared
with the resolved type and type_options". -/
theorem C2_open_indirection_counterexample :
    FlowResponse.clean openQuestion
        (mkResponseRec (some .STRING) (.str "a") choiceOrderMd) = none ∧
    FlowResponse.clean selectQuestion
        (mkResponseRec (some .STRING) (.str "a") choiceOrderMd)
      = some ([], mkResponseRec (some .STRING) (.str "a") choiceOrderMd) :=
  ⟨rfl, rfl⟩

/-- C2 amended: for an open-typed question whose `response_metadata` carries a
valid concrete `type` and a `type_options` object: if the resolved options
violate the Question Type Validator, every violation `m` is reported under
`response_metadata` as `type_options.m` (and not under `type_options`);
otherwise, provided the metadata carries no `choice_order` key, validation
continues exactly as if the question had been declared with the resolved type
and type_options.  (With a `choice_order` present, the order is checked
against the question's own stored options instead — the counterexample.) -/
theorem C2_open_indirection_amended :
    (∀ (q : FlowQuestionRec) (r : FlowResponseRec) ts t opts msgs,
      q.type = .open_q →
      PyDict.lookup r.response_metadata "type" = some (.str ts) →
      QType.ofValue ts = some t → t ≠ .open_q →
      PyDict.lookup r.response_metadata "type_options" = some (.dict opts) →
      FlowQuestion.validateTypeOptions t opts = msgs → msgs ≠ [] →
      FlowResponse.clean q r
        = some (msgs.map (fun m => ("response_metadata", "type_options." ++ m)),
            r)) ∧
    (∀ (q : FlowQuestionRec) (r : FlowResponseRec) ts t opts,
      q.type = .open_q →
      PyDict.lookup r.response_metadata "type" = some (.str ts) →
      QType.ofValue ts = some t → t ≠ .open_q →
      PyDict.lookup r.response_metadata "type_options" = some (.dict opts) →
      FlowQuestion.validateTypeOptions t opts = [] →
      PyDict.hasKey r.response_metadata "choice_order" = false →
      FlowResponse.clean q r
        = FlowResponse.clean
            { q with type := t, type_options := opts } r) := by
  constructor
  · exact clean_open_resolved_errors
  · intro q r ts t opts hq hty hoft hne hopts hmsgs hco
    rw [clean_open_resolved_ok q r ts t opts hq hty hoft hne hopts hmsgs]
    rw [show FlowResponse.clean { q with type := t, type_options := opts } r
        = FlowResponse.cleanDispatch t opts
            { q with type := t, type_options := opts } r [] by
      rw [FlowResponse.clean, if_neg hne]]
    exact cleanDispatch_question_free t opts q _ r [] hco

/-- Witness for C2's amended claim: the spec's open-type indirection example
(resolved `select_one` over `["a", "b"]`, response `"invalid"`, no
`choice_order`) validates exactly as the natively declared question — both
yield the choice-membership error under `response` — and an open question
resolving to `select_one` with empty resolved options gets the required-choices
violation under `response_metadata` with the `type_options.` prefix. -/
theorem C2_open_indirection_amended_witness :
    (FlowResponse.clean openQuestion
        (mkResponseRec (some .STRING) (.str "invalid") openSelectMd)
      = FlowResponse.clean
          { openQuestion with
              type := .select_one
              type_options := [("choices", .list [.str "a", .str "b"])] }
          (mkResponseRec (some .STRING) (.str "invalid") openSelectMd)) ∧
    (FlowResponse.clean openQuestion
        (mkResponseRec (some .STRING) (.str "x")
          [("type", .str "select_one"), ("type_options", .dict [])])
      = some ([("response_metadata",
          "type_options.choices is required for select_one type")],
          mkResponseRec (some .STRING) (.str "x")
            [("type", .str "select_one"), ("type_options", .dict [])])) :=
  ⟨C2_open_indirection_amended.2 openQuestion
      (mkResponseRec (some .STRING) (.str "invalid") openSelectMd)
      "select_one" .select_one [("choices", .list [.str "a", .str "b"])]
      rfl rfl rfl (by decide) rfl rfl rfl,
   C2_open_indirection_amended.1 openQuestion
      (mkResponseRec (some .STRING) (.str "x")
        [("type", .str "select_one"), ("type_options", .dict [])])
      "select_one" .select_one []
      ["choices is required for select_one type"]
      rfl rfl rfl (by decide) rfl rfl (by decide)⟩

/-- C10: a cursor value that occurs on more than one response of the flow —
which the data model permits, since uniqueness holds only per
`(question, row_id)` — makes the single-object cursor lookup raise an
uncaught `MultipleObjectsReturned`: the `list` handler only catches the
no-match and missing-parameter cases, for `page[afterCursor]` and
`page[beforeCursor]` alike; concretely, a store of two rows with the same
`row_id` under two different questions satisfies the uniqueness invariant yet
crashes the request. -/
theorem C10_duplicate_cursor_crash :
    (∀ (rows : List StoredRow) (q : ListQuery) c,
      q.afterCursor = some c →
      2 ≤ (rows.filter (fun a => pyEq a.row_id_value (.str c))).length →
      FlowResponseViewSet.list rows q = .multipleObjectsReturned) ∧
    (∀ (rows : List StoredRow) (q : ListQuery) c,
      q.afterCursor = none → q.beforeCursor = some c →
      2 ≤ (rows.filter (fun a => pyEq a.row_id_value (.str c))).length →
      FlowResponseViewSet.list rows q = .multipleObjectsReturned) ∧
    (rowUniqueInvariant dupRowStore ∧
      FlowResponseViewSet.list dupRowStore dupQuery
        = .multipleObjectsReturned) := by
  refine ⟨?_, ?_, ?_, rfl⟩
  · intro rows q c hafter hlen
    match hfil : rows.filter (fun a => pyEq a.row_id_value (.str c)) with
    | [] => rw [hfil] at hlen; simp at hlen
    | [a] => rw [hfil] at hlen; simp at hlen
    | a :: b :: rest =>
      simp [FlowResponseViewSet.list, hafter, hfil]
  · intro rows q c hafter hbefore hlen
    match hfil : rows.filter (fun a => pyEq a.row_id_value (.str c)) with
    | [] => rw [hfil] at hlen; simp at hlen
    | [a] => rw [hfil] at hlen; simp at hlen
    | a :: b :: rest =>
      simp [FlowResponseViewSet.list, hafter, hbefore, hfil]
  · show List.Pairwise _ _
    refine List.Pairwise.cons ?_ (List.Pairwise.cons ?_ List.Pairwise.nil)
    · intro b hb h
      simp only [dupRowStore, List.mem_cons, List.mem_singleton,
        List.not_mem_nil, or_false] at hb
      rw [hb] at h
      exact absurd h.1 (by decide)
    · intro b hb
      simp at hb

/-- Witness for C10's general conjunct at the two-row duplicate store. -/
theorem C10_duplicate_cursor_crash_witness :
    FlowResponseViewSet.list dupRowStore dupQuery = .multipleObjectsReturned :=
  C10_duplicate_cursor_crash.1 dupRowStore dupQuery "dup" rfl (by decide)

/-- C6 counterexample: with `page[afterCursor]=a4` — the flow's last row — no
row's sequence number exceeds the cursor row's, so the rows "returned" per the
claim form the empty page (which §4.4's "absent boundary ⇒ that link is null"
renders as an empty response with null links); the handler instead crashes
with an uncaught `IndexError` reading `answers[0]` for the previous link, so
it returns no rows at all. -/
theorem C6_pagination_boundary_counterexample :
    afterWindow fiveRowStore (mkStoredRow 4 "a4" "q1") = [] ∧
    listAfterSpec fiveRowStore (mkStoredRow 4 "a4" "q1") (min 100 2)
      = .ok [] none none ∧
    FlowResponseViewSet.list fiveRowStore afterA4Query = .indexError ∧
    FlowResponseViewSet.list fiveRowStore afterA4Query
      ≠ listAfterSpec fiveRowStore (mkStoredRow 4 "a4" "q1") (min 100 2) := by
  refine ⟨rfl, rfl, rfl, fun h => ?_⟩
  rw [show FlowResponseViewSet.list fiveRowStore afterA4Query
      = ListResult.indexError from rfl,
    show listAfterSpec fiveRowStore (mkStoredRow 4 "a4" "q1") (min 100 2)
      = ListResult.ok [] none none from rfl] at h
  exact ListResult.noConfusion h

/-- C6 amended: for a response listing, the effective page size is the minimum
of the configured default (100) and the requested `page[size]`; with
`page[afterCursor]` matching exactly one row `a` of the flow (and no other
filters), *provided at least one row lies beyond the cursor*, the handler
follows the spec's after-cursor protocol: it returns exactly the rows whose
internal sequence number exceeds `a`'s, in ascending order, fetching
`page_size + 1` rows and trimming to `page_size` to decide `has_next`, with
`has_previous` set (the `previous` link carries the first returned row's
`row_id`; `next` is `null` without overflow); when no row lies beyond the
cursor, the handler raises an uncaught `IndexError` on the previous-link
boundary read instead of returning the empty page; concretely, with rows
`a0..a4`, `page[size]=2` and `afterCursor=a3`, exactly `a4` is returned,
`next` is `null` and `previous` carries `beforeCursor=a4`. -/
theorem C6_pagination_boundary_amended :
    (∀ n : Int, effectivePageSize (some n) = min 100 n) ∧
    (∀ (rows : List StoredRow) (q : ListQuery) c a n,
      q.start_filter = none → q.end_filter = none →
      q.page_size_param = some n → 0 < n →
      q.afterCursor = some c → q.beforeCursor = none →
      rows.filter (fun x => pyEq x.row_id_value (.str c)) = [a] →
      afterWindow rows a ≠ [] →
      FlowResponseViewSet.list rows q = listAfterSpec rows a (min 100 n)) ∧
    (∀ (rows : List StoredRow) (q : ListQuery) c a n,
      q.start_filter = none → q.end_filter = none →
      q.page_size_param = some n → 0 < n →
      q.afterCursor = some c → q.beforeCursor = none →
      rows.filter (fun x => pyEq x.row_id_value (.str c)) = [a] →
      afterWindow rows a = [] →
      FlowResponseViewSet.list rows q = .indexError) ∧
    FlowResponseViewSet.list fiveRowStore afterA3Query
      = .ok [(mkStoredRow 4 "a4" "q1").tuple] none (some (.str "a4")) :=
  ⟨fun _ => rfl, list_afterCursor_spec, list_afterCursor_empty, rfl⟩

/-- Witness for C6's amended claim: the non-empty-window conjunct at the
five-row fixture with `afterCursor=a3`, and the empty-window conjunct with
`afterCursor=a4`. -/
theorem C6_pagination_boundary_amended_witness :
    FlowResponseViewSet.list fiveRowStore afterA3Query
      = listAfterSpec fiveRowStore (mkStoredRow 3 "a3" "q1") (min 100 2) ∧
    FlowResponseViewSet.list fiveRowStore afterA4Query = .indexError :=
  ⟨C6_pagination_boundary_amended.2.1 fiveRowStore afterA3Query "a3"
      (mkStoredRow 3 "a3" "q1") 2 rfl rfl rfl (by norm_num) rfl rfl rfl
      (fun h => List.noConfusion h),
   C6_pagination_boundary_amended.2.2.1 fiveRowStore afterA4Query "a4"
      (mkStoredRow 4 "a4" "q1") 2 rfl rfl rfl (by norm_num) rfl rfl rfl rfl⟩

end FlowResults
